import Mathlib

/-!
Verification of the OTP email-verification service (Go, two near-duplicate
programs: a Redis-backed variant in `main.go` and a SQL Server-backed
variant). We shallowly embed the OTP record, both persistence backends and
the verification orchestrator's two operations, and prove or refute the
spec's claims about them.

Modelling conventions:
- Time is a `Nat` counted in seconds; `time.Since(t).Minutes() < m`
  becomes `now - t < m * 60` (Go's float comparison of durations is an
  exact comparison of the underlying durations at this granularity).
- The stores are keyed by email and every operation touches only the key
  it is given (the SQL sweep deletes records of every email, but its
  delete condition is evaluated per record, independently across emails),
  so we model the slot of one email: the Redis backend state is
  `Option (OTPRecord × Nat)` (record plus its absolute expiry deadline,
  the deadline being set from the TTL passed to `SET`), and the SQL
  backend state is `Option OTPRecord`. Every theorem is parametric in the
  record's email, code and timestamps.
- The notifier is modelled by a boolean `sendOk` saying whether
  `SendEmail` succeeds for this call; the generated code is a parameter
  (`generateOTP` draws from the clock and its value is irrelevant to the
  lifecycle logic).
- The Go functions return `error`; we return `Except VErr Unit` paired
  with the post state, with one `VErr` constructor per distinct
  `fmt.Errorf` site of the orchestrator. The model's backend calls cannot
  fail (the claims under study are about lifecycle logic, not transport
  failures), matching the code's happy-path storage behaviour.
- The SQL record's `id` column is never read by the lifecycle logic and
  is omitted.
-/

/-- Configured constants, from the `const` block shared by both programs. -/
def OTPLength : Nat := 6

/-- Expiry window in minutes (`OTPExpiryMinutes = 10`). -/
def OTPExpiryMinutes : Nat := 10

/-- Maximum verification attempts (`MaxAttempts = 3`). -/
def MaxAttempts : Nat := 3

/-- Resend throttle delay in minutes (`ResendDelayMins = 1`). -/
def ResendDelayMins : Nat := 1

/-- Seconds per minute, used to express the Go `time.Duration` comparisons
over our `Nat` seconds. -/
def minuteSecs : Nat := 60

/-- The expiry window in seconds. -/
def otpExpirySecs : Nat := OTPExpiryMinutes * minuteSecs

/-- The resend delay in seconds. -/
def resendDelaySecs : Nat := ResendDelayMins * minuteSecs

/-- The OTP record (`OTPRecord` in both programs): email key, code string,
issuance timestamp, failed/checked attempt count, verified flag. -/
structure OTPRecord where
  email : String
  otp : String
  createdAt : Nat
  attempts : Nat
  verified : Bool
deriving Repr, DecidableEq

/-- The errors returned by the orchestrator, one constructor per
`fmt.Errorf` site: `notFound` = "no verification code found or code has
expired", `alreadyVerified` = "email is already verified",
`attemptsExhausted` = "maximum verification attempts exceeded",
`mismatch` = "invalid verification code", `throttle w` = "please wait %d
minutes before requesting a new OTP" with `w` the formatted minute count,
`delivery` = a notifier failure propagated by `SendVerificationEmail`. -/
inductive VErr where
  | notFound
  | alreadyVerified
  | attemptsExhausted
  | mismatch
  | throttle (waitMins : Nat)
  | delivery
deriving Repr, DecidableEq

/-- State of the Redis backend for one email: the stored record together
with the absolute deadline at which the key expires (Redis `SET key val
TTL` stored at time `t` yields deadline `t + TTL`); `none` when the key is
absent. -/
abbrev RedisSt := Option (OTPRecord × Nat)

/-- State of the SQL backend for one email: the row of
`otp_verifications` with that email, if any. -/
abbrev SqlSt := Option OTPRecord

namespace RedisOTPService

/-- Embeds `RedisOTPService.StoreOTP`: `SET` with TTL `OTPExpiryMinutes`
minutes, so the key's expiry deadline becomes `now + otpExpirySecs` —
every store, including the ones performed on failed attempts, restarts
the TTL at the full window. -/
def StoreOTP (now : Nat) (record : OTPRecord) (_s : RedisSt) : RedisSt :=
  some (record, now + otpExpirySecs)

/-- Embeds `RedisOTPService.GetOTP`: `GET` returns the value while the key has
not expired (`now < deadline`), and `redis.Nil` (here `none`) once the
deadline has passed or the key is absent. -/
def GetOTP (now : Nat) (s : RedisSt) : Option OTPRecord :=
  match s with
  | some (record, deadline) => if now < deadline then some record else none
  | none => none

/-- Embeds `RedisOTPService.DeleteOTP`: `DEL` on the email's key. -/
def DeleteOTP (_s : RedisSt) : RedisSt :=
  none

end RedisOTPService

namespace SQLServerService

/-- Embeds `SQLServerService.StoreOTP`: the `MERGE` upsert replaces the row for
this email wholesale (or inserts it). -/
def StoreOTP (record : OTPRecord) (_s : SqlSt) : SqlSt :=
  some record

/-- Embeds `SQLServerService.GetOTP`: `SELECT ... WHERE email = @Email` with no
condition on `created_at` — the row is returned whether or not it has
passed the expiry window. -/
def GetOTP (s : SqlSt) : Option OTPRecord :=
  s

/-- Embeds `SQLServerService.UpdateOTP`: `UPDATE ... SET attempts, verified
WHERE email = @Email` — only those two columns change, and nothing
happens if the row is absent (zero rows affected is not an error). -/
def UpdateOTP (record : OTPRecord) (s : SqlSt) : SqlSt :=
  match s with
  | some old => some { old with attempts := record.attempts, verified := record.verified }
  | none => none

/-- Embeds `SQLServerService.CleanupExpiredOTPs`: `DELETE ... WHERE created_at <
DATEADD(MINUTE, -OTPExpiryMinutes, GETDATE()) AND verified = 0`, i.e. the
row is removed when `createdAt + otpExpirySecs < now` and it is
unverified. -/
def CleanupExpiredOTPs (now : Nat) (s : SqlSt) : SqlSt :=
  match s with
  | some record =>
      if record.createdAt + otpExpirySecs < now ∧ record.verified = false then none
      else some record
  | none => none

end SQLServerService

namespace VerificationService

/-- Embeds `VerificationService.VerifyOTP` of the Redis program (`main.go`):
fetch; absent/expired → not-found error; verified → already-verified
error; `Attempts >= MaxAttempts` → delete the key and fail exhausted;
otherwise increment `Attempts`, on mismatch persist (with a fresh TTL)
and fail, on match set `Verified` and persist (with a fresh TTL). -/
def VerifyOTP_redis (now : Nat) (providedOTP : String) (s : RedisSt) :
    Except VErr Unit × RedisSt :=
  match RedisOTPService.GetOTP now s with
  | none => (.error .notFound, s)
  | some record =>
      if record.verified then (.error .alreadyVerified, s)
      else if MaxAttempts ≤ record.attempts then
        (.error .attemptsExhausted, RedisOTPService.DeleteOTP s)
      else
        let record := { record with attempts := record.attempts + 1 }
        if record.otp ≠ providedOTP then
          (.error .mismatch, RedisOTPService.StoreOTP now record s)
        else
          (.ok (), RedisOTPService.StoreOTP now { record with verified := true } s)

/-- Embeds `VerificationService.VerifyOTP` of the SQL program: fetch (no expiry
filtering anywhere on this path); `nil` row → not-found error; verified →
already-verified error; `Attempts >= MaxAttempts` → fail exhausted
without deleting the row; otherwise increment `Attempts`, on mismatch
persist via `UpdateOTP` and fail, on match set `Verified` and persist. -/
def VerifyOTP_sql (providedOTP : String) (s : SqlSt) :
    Except VErr Unit × SqlSt :=
  match SQLServerService.GetOTP s with
  | none => (.error .notFound, s)
  | some record =>
      if record.verified then (.error .alreadyVerified, s)
      else if MaxAttempts ≤ record.attempts then
        (.error .attemptsExhausted, s)
      else
        let record := { record with attempts := record.attempts + 1 }
        if record.otp ≠ providedOTP then
          (.error .mismatch, SQLServerService.UpdateOTP record s)
        else
          (.ok (), SQLServerService.UpdateOTP { record with verified := true } s)

/-- Embeds `VerificationService.SendVerificationEmail` of the Redis program:
fetch; a live record younger than the resend delay → throttle error
formatting the constant `ResendDelayMins`; otherwise store a fresh record
(`Attempts = 0`, `Verified = false`, `CreatedAt = now`) and send; on send
failure delete the just-stored key and propagate the failure. -/
def SendVerificationEmail_redis (now : Nat) (email newOTP : String)
    (sendOk : Bool) (s : RedisSt) : Except VErr Unit × RedisSt :=
  let throttled : Bool :=
    match RedisOTPService.GetOTP now s with
    | some existing => decide (now - existing.createdAt < resendDelaySecs)
    | none => false
  if throttled then (.error (.throttle ResendDelayMins), s)
  else
    let record : OTPRecord := ⟨email, newOTP, now, 0, false⟩
    let s1 := RedisOTPService.StoreOTP now record s
    if sendOk then (.ok (), s1)
    else (.error .delivery, RedisOTPService.DeleteOTP s1)

/-- Embeds `VerificationService.SendVerificationEmail` of the SQL program: sweep
expired unverified rows, fetch; a record younger than the resend delay →
throttle error formatting the constant `ResendDelayMins`; otherwise
upsert a fresh record and send — the stored row is NOT deleted when the
send fails (`return s.emailService.SendEmail(...)` with no rollback). -/
def SendVerificationEmail_sql (now : Nat) (email newOTP : String)
    (sendOk : Bool) (s : SqlSt) : Except VErr Unit × SqlSt :=
  let s := SQLServerService.CleanupExpiredOTPs now s
  let throttled : Bool :=
    match SQLServerService.GetOTP s with
    | some existing => decide (now - existing.createdAt < resendDelaySecs)
    | none => false
  if throttled then (.error (.throttle ResendDelayMins), s)
  else
    let s1 := SQLServerService.StoreOTP ⟨email, newOTP, now, 0, false⟩ s
    if sendOk then (.ok (), s1)
    else (.error .delivery, s1)

end VerificationService

/-- Fold a list of Redis `VerifyOTP` calls (each a time and a provided
code) over a backend state, keeping the final state. -/
def redisVerifyFold (calls : List (Nat × String)) (s : RedisSt) : RedisSt :=
  calls.foldl (fun st c => (VerificationService.VerifyOTP_redis c.1 c.2 st).2) s

/-- Fold a list of SQL `VerifyOTP` calls (each a provided code) over a
backend state, keeping the final state. -/
def sqlVerifyFold (calls : List String) (s : SqlSt) : SqlSt :=
  calls.foldl (fun st w => (VerificationService.VerifyOTP_sql w st).2) s

/-- The attempts bound on a Redis backend state. -/
def redisAttemptsOk (s : RedisSt) : Prop :=
  match s with
  | some (record, _) => record.attempts ≤ MaxAttempts
  | none => True

/-- The attempts bound on a SQL backend state. -/
def sqlAttemptsOk (s : SqlSt) : Prop :=
  match s with
  | some record => record.attempts ≤ MaxAttempts
  | none => True

instance : DecidablePred redisAttemptsOk := fun s => by
  unfold redisAttemptsOk
  match s with
  | some (record, _) => exact inferInstanceAs (Decidable (record.attempts ≤ MaxAttempts))
  | none => exact inferInstanceAs (Decidable True)

instance : DecidablePred sqlAttemptsOk := fun s => by
  unfold sqlAttemptsOk
  match s with
  | some record => exact inferInstanceAs (Decidable (record.attempts ≤ MaxAttempts))
  | none => exact inferInstanceAs (Decidable True)

instance : DecidableEq (Except VErr Unit) := fun a b =>
  match a, b with
  | .ok (), .ok () => isTrue rfl
  | .error e, .error f =>
      if h : e = f then isTrue (by rw [h])
      else isFalse (by intro hh; injection hh; contradiction)
  | .ok _, .error _ => isFalse (by intro h; exact Except.noConfusion h)
  | .error _, .ok _ => isFalse (by intro h; exact Except.noConfusion h)

/-- The attempt count stored for the email, `0` when no record exists. -/
def redisAttemptsOf (s : RedisSt) : Nat :=
  match s with
  | some (record, _) => record.attempts
  | none => 0

/-- The attempt count stored in the SQL row, `0` when no row exists. -/
def sqlAttemptsOf (s : SqlSt) : Nat :=
  match s with
  | some record => record.attempts
  | none => 0

section BranchLemmas

/-- Redis `VerifyOTP` when the key is absent or already expired. -/
theorem verifyRedis_absent (now : Nat) (w : String) (s : RedisSt)
    (h : RedisOTPService.GetOTP now s = none) :
    VerificationService.VerifyOTP_redis now w s = (.error .notFound, s) := by
  simp [VerificationService.VerifyOTP_redis, h]

/-- Redis `VerifyOTP` on a live record that is already verified. -/
theorem verifyRedis_verified (now : Nat) (w : String) (r : OTPRecord) (dl : Nat)
    (hlive : now < dl) (hv : r.verified = true) :
    VerificationService.VerifyOTP_redis now w (some (r, dl)) =
      (.error .alreadyVerified, some (r, dl)) := by
  simp [VerificationService.VerifyOTP_redis, RedisOTPService.GetOTP, hlive, hv]

/-- Redis `VerifyOTP` on a live unverified record whose attempts have
reached the maximum: fails exhausted and deletes the key. -/
theorem verifyRedis_exhausted (now : Nat) (w : String) (r : OTPRecord) (dl : Nat)
    (hlive : now < dl) (hv : r.verified = false) (ha : MaxAttempts ≤ r.attempts) :
    VerificationService.VerifyOTP_redis now w (some (r, dl)) =
      (.error .attemptsExhausted, none) := by
  simp [VerificationService.VerifyOTP_redis, RedisOTPService.GetOTP,
    RedisOTPService.DeleteOTP, hlive, hv, ha]

/-- Redis `VerifyOTP` on a live pending record with a wrong code:
increments attempts, persists with a fresh full TTL, fails mismatch. -/
theorem verifyRedis_mismatch (now : Nat) (w : String) (r : OTPRecord) (dl : Nat)
    (hlive : now < dl) (hv : r.verified = false) (ha : r.attempts < MaxAttempts)
    (hw : r.otp ≠ w) :
    VerificationService.VerifyOTP_redis now w (some (r, dl)) =
      (.error .mismatch,
        some ({ r with attempts := r.attempts + 1 }, now + otpExpirySecs)) := by
  simp [VerificationService.VerifyOTP_redis, RedisOTPService.GetOTP,
    RedisOTPService.StoreOTP, hlive, hv, hw, Nat.not_le.mpr ha]

/-- Redis `VerifyOTP` on a live pending record with the right code:
increments attempts, sets verified, persists with a fresh full TTL. -/
theorem verifyRedis_match (now : Nat) (w : String) (r : OTPRecord) (dl : Nat)
    (hlive : now < dl) (hv : r.verified = false) (ha : r.attempts < MaxAttempts)
    (hw : r.otp = w) :
    VerificationService.VerifyOTP_redis now w (some (r, dl)) =
      (.ok (),
        some ({ r with attempts := r.attempts + 1, verified := true },
          now + otpExpirySecs)) := by
  simp [VerificationService.VerifyOTP_redis, RedisOTPService.GetOTP,
    RedisOTPService.StoreOTP, hlive, hv, hw, Nat.not_le.mpr ha]

/-- SQL `VerifyOTP` when no row exists. -/
theorem verifySql_absent (w : String) :
    VerificationService.VerifyOTP_sql w none = (.error .notFound, none) := rfl

/-- SQL `VerifyOTP` on a verified row. -/
theorem verifySql_verified (w : String) (r : OTPRecord) (hv : r.verified = true) :
    VerificationService.VerifyOTP_sql w (some r) =
      (.error .alreadyVerified, some r) := by
  simp [VerificationService.VerifyOTP_sql, SQLServerService.GetOTP, hv]

/-- SQL `VerifyOTP` on an unverified row whose attempts have reached the
maximum: fails exhausted and leaves the row in place (no deletion). -/
theorem verifySql_exhausted (w : String) (r : OTPRecord)
    (hv : r.verified = false) (ha : MaxAttempts ≤ r.attempts) :
    VerificationService.VerifyOTP_sql w (some r) =
      (.error .attemptsExhausted, some r) := by
  simp [VerificationService.VerifyOTP_sql, SQLServerService.GetOTP, hv, ha]

/-- SQL `VerifyOTP` on a pending row with a wrong code: increments
attempts, persists via `UpdateOTP`, fails mismatch. -/
theorem verifySql_mismatch (w : String) (r : OTPRecord)
    (hv : r.verified = false) (ha : r.attempts < MaxAttempts) (hw : r.otp ≠ w) :
    VerificationService.VerifyOTP_sql w (some r) =
      (.error .mismatch, some { r with attempts := r.attempts + 1 }) := by
  simp [VerificationService.VerifyOTP_sql, SQLServerService.GetOTP,
    SQLServerService.UpdateOTP, hv, hw, Nat.not_le.mpr ha]

/-- SQL `VerifyOTP` on a pending row with the right code: increments
attempts, sets verified, persists via `UpdateOTP`. -/
theorem verifySql_match (w : String) (r : OTPRecord)
    (hv : r.verified = false) (ha : r.attempts < MaxAttempts) (hw : r.otp = w) :
    VerificationService.VerifyOTP_sql w (some r) =
      (.ok (), some { r with attempts := r.attempts + 1, verified := true }) := by
  simp [VerificationService.VerifyOTP_sql, SQLServerService.GetOTP,
    SQLServerService.UpdateOTP, hv, hw, Nat.not_le.mpr ha]

/-- The constant `otpExpirySecs` is positive, so a key stored at `now` is live at `now`. -/
theorem lt_add_expiry (n : Nat) : n < n + otpExpirySecs := by
  have h : otpExpirySecs = 600 := rfl
  omega

/-- Redis `SendVerificationEmail` throttles when a live record is younger
than the resend delay, leaving the state untouched; the error formats the
constant `ResendDelayMins`. -/
theorem sendRedis_throttled (now : Nat) (em c : String) (ok : Bool)
    (r : OTPRecord) (dl : Nat) (hlive : now < dl)
    (hfresh : now - r.createdAt < resendDelaySecs) :
    VerificationService.SendVerificationEmail_redis now em c ok (some (r, dl)) =
      (.error (.throttle ResendDelayMins), some (r, dl)) := by
  simp [VerificationService.SendVerificationEmail_redis, RedisOTPService.GetOTP,
    hlive, hfresh]

/-- Redis `SendVerificationEmail` from an empty slot: stores the fresh
record; on delivery failure it deletes it again (rollback). -/
theorem sendRedis_absent (now : Nat) (em c : String) (ok : Bool) :
    VerificationService.SendVerificationEmail_redis now em c ok none =
      (if ok then .ok () else .error .delivery,
        if ok then some (⟨em, c, now, 0, false⟩, now + otpExpirySecs) else none) := by
  cases ok <;> rfl

/-- Redis `SendVerificationEmail` over an existing record once the resend
delay has passed since its `createdAt`: proceeds (whether the old key is
still live or already expired), and rolls back on delivery failure. -/
theorem sendRedis_proceed (now : Nat) (em c : String) (ok : Bool)
    (r : OTPRecord) (dl : Nat)
    (hdelay : r.createdAt + resendDelaySecs ≤ now) :
    VerificationService.SendVerificationEmail_redis now em c ok (some (r, dl)) =
      (if ok then .ok () else .error .delivery,
        if ok then some (⟨em, c, now, 0, false⟩, now + otpExpirySecs) else none) := by
  have h60 : resendDelaySecs = 60 := rfl
  have hfresh : ¬ (now - r.createdAt < resendDelaySecs) := by omega
  by_cases hlive : now < dl <;>
    simp [VerificationService.SendVerificationEmail_redis, RedisOTPService.GetOTP,
      RedisOTPService.StoreOTP, RedisOTPService.DeleteOTP, hlive, hfresh] <;>
    cases ok <;> rfl

/-- SQL `SendVerificationEmail` throttles when the stored row is younger
than the resend delay (such a row also survives the sweep), leaving the
state untouched; the error formats the constant `ResendDelayMins`. -/
theorem sendSql_throttled (now : Nat) (em c : String) (ok : Bool)
    (r : OTPRecord) (hfresh : now - r.createdAt < resendDelaySecs) :
    VerificationService.SendVerificationEmail_sql now em c ok (some r) =
      (.error (.throttle ResendDelayMins), some r) := by
  have h60 : resendDelaySecs = 60 := rfl
  have h600 : otpExpirySecs = 600 := rfl
  have hexp : ¬ (r.createdAt + otpExpirySecs < now) := by omega
  simp [VerificationService.SendVerificationEmail_sql,
    SQLServerService.CleanupExpiredOTPs, SQLServerService.GetOTP, hexp, hfresh]

/-- SQL `SendVerificationEmail` from an empty table: stores the fresh
row and keeps it stored even when delivery fails (no rollback). -/
theorem sendSql_absent (now : Nat) (em c : String) (ok : Bool) :
    VerificationService.SendVerificationEmail_sql now em c ok none =
      (if ok then .ok () else .error .delivery, some ⟨em, c, now, 0, false⟩) := by
  cases ok <;> rfl

/-- SQL `SendVerificationEmail` over an existing row once the resend delay
has passed since its `createdAt`: proceeds (whether or not the sweep
removed the old row first) and upserts the fresh row, which stays stored
even when delivery fails. -/
theorem sendSql_proceed (now : Nat) (em c : String) (ok : Bool)
    (r : OTPRecord) (hdelay : r.createdAt + resendDelaySecs ≤ now) :
    VerificationService.SendVerificationEmail_sql now em c ok (some r) =
      (if ok then .ok () else .error .delivery, some ⟨em, c, now, 0, false⟩) := by
  have h60 : resendDelaySecs = 60 := rfl
  have hfresh : ¬ (now - r.createdAt < resendDelaySecs) := by omega
  by_cases hexp : r.createdAt + otpExpirySecs < now ∧ r.verified = false <;>
    simp [VerificationService.SendVerificationEmail_sql,
      SQLServerService.CleanupExpiredOTPs, SQLServerService.GetOTP,
      SQLServerService.StoreOTP, hexp, hfresh] <;>
    cases ok <;> rfl

/-- One Redis `VerifyOTP` call preserves the attempts bound. -/
theorem redisVerify_step_attemptsOk (now : Nat) (w : String) (s : RedisSt)
    (h : redisAttemptsOk s) :
    redisAttemptsOk (VerificationService.VerifyOTP_redis now w s).2 := by
  rcases s with _ | ⟨r, dl⟩
  · exact h
  · by_cases hlive : now < dl
    · by_cases hv : r.verified = true
      · rw [verifyRedis_verified now w r dl hlive hv]; exact h
      · rw [Bool.not_eq_true] at hv
        rcases Nat.lt_or_ge r.attempts MaxAttempts with ha | ha
        · by_cases hw : r.otp = w
          · rw [verifyRedis_match now w r dl hlive hv ha hw]; exact ha
          · rw [verifyRedis_mismatch now w r dl hlive hv ha hw]; exact ha
        · rw [verifyRedis_exhausted now w r dl hlive hv ha]; trivial
    · rw [verifyRedis_absent now w _ (by simp [RedisOTPService.GetOTP, hlive])]
      exact h

/-- One SQL `VerifyOTP` call preserves the attempts bound. -/
theorem sqlVerify_step_attemptsOk (w : String) (s : SqlSt)
    (h : sqlAttemptsOk s) :
    sqlAttemptsOk (VerificationService.VerifyOTP_sql w s).2 := by
  rcases s with _ | r
  · exact h
  · by_cases hv : r.verified = true
    · rw [verifySql_verified w r hv]; exact h
    · rw [Bool.not_eq_true] at hv
      rcases Nat.lt_or_ge r.attempts MaxAttempts with ha | ha
      · by_cases hw : r.otp = w
        · rw [verifySql_match w r hv ha hw]; exact ha
        · rw [verifySql_mismatch w r hv ha hw]; exact ha
      · rw [verifySql_exhausted w r hv ha]; exact h

/-- One Redis `VerifyOTP` call either deletes the key or does not
decrease the stored attempt count. -/
theorem redisVerify_step_mono (now : Nat) (w : String) (s : RedisSt) :
    (VerificationService.VerifyOTP_redis now w s).2 = none ∨
      redisAttemptsOf s ≤
        redisAttemptsOf (VerificationService.VerifyOTP_redis now w s).2 := by
  rcases s with _ | ⟨r, dl⟩
  · exact Or.inl rfl
  · by_cases hlive : now < dl
    · by_cases hv : r.verified = true
      · rw [verifyRedis_verified now w r dl hlive hv]; exact Or.inr le_rfl
      · rw [Bool.not_eq_true] at hv
        rcases Nat.lt_or_ge r.attempts MaxAttempts with ha | ha
        · by_cases hw : r.otp = w
          · rw [verifyRedis_match now w r dl hlive hv ha hw]
            exact Or.inr (Nat.le_succ _)
          · rw [verifyRedis_mismatch now w r dl hlive hv ha hw]
            exact Or.inr (Nat.le_succ _)
        · rw [verifyRedis_exhausted now w r dl hlive hv ha]; exact Or.inl rfl
    · rw [verifyRedis_absent now w _ (by simp [RedisOTPService.GetOTP, hlive])]
      exact Or.inr le_rfl

/-- One SQL `VerifyOTP` call either deletes the row (it never does) or
does not decrease the stored attempt count. -/
theorem sqlVerify_step_mono (w : String) (s : SqlSt) :
    (VerificationService.VerifyOTP_sql w s).2 = none ∨
      sqlAttemptsOf s ≤ sqlAttemptsOf (VerificationService.VerifyOTP_sql w s).2 := by
  rcases s with _ | r
  · exact Or.inl rfl
  · by_cases hv : r.verified = true
    · rw [verifySql_verified w r hv]; exact Or.inr le_rfl
    · rw [Bool.not_eq_true] at hv
      rcases Nat.lt_or_ge r.attempts MaxAttempts with ha | ha
      · by_cases hw : r.otp = w
        · rw [verifySql_match w r hv ha hw]; exact Or.inr (Nat.le_succ _)
        · rw [verifySql_mismatch w r hv ha hw]; exact Or.inr (Nat.le_succ _)
      · rw [verifySql_exhausted w r hv ha]; exact Or.inr le_rfl

/-- A Redis `VerifyOTP` call against a record whose attempts have
reached the bound cannot succeed. -/
theorem redisVerify_step_no_success (now : Nat) (w : String) (s : RedisSt)
    (h : MaxAttempts ≤ redisAttemptsOf s) :
    (VerificationService.VerifyOTP_redis now w s).1 ≠ .ok () := by
  rcases s with _ | ⟨r, dl⟩
  · exact absurd h (by decide)
  · by_cases hlive : now < dl
    · by_cases hv : r.verified = true
      · rw [verifyRedis_verified now w r dl hlive hv]
        exact fun hh => Except.noConfusion hh
      · rw [Bool.not_eq_true] at hv
        rw [verifyRedis_exhausted now w r dl hlive hv h]
        exact fun hh => Except.noConfusion hh
    · rw [verifyRedis_absent now w _ (by simp [RedisOTPService.GetOTP, hlive])]
      exact fun hh => Except.noConfusion hh

/-- A SQL `VerifyOTP` call against a row whose attempts have reached the
bound cannot succeed. -/
theorem sqlVerify_step_no_success (w : String) (s : SqlSt)
    (h : MaxAttempts ≤ sqlAttemptsOf s) :
    (VerificationService.VerifyOTP_sql w s).1 ≠ .ok () := by
  rcases s with _ | r
  · exact absurd h (by decide)
  · by_cases hv : r.verified = true
    · rw [verifySql_verified w r hv]
      exact fun hh => Except.noConfusion hh
    · rw [Bool.not_eq_true] at hv
      rw [verifySql_exhausted w r hv h]
      exact fun hh => Except.noConfusion hh

/-- The attempts bound is preserved by any sequence of Redis `VerifyOTP`
calls. -/
theorem redisVerifyFold_attemptsOk (calls : List (Nat × String)) (s : RedisSt)
    (h : redisAttemptsOk s) : redisAttemptsOk (redisVerifyFold calls s) := by
  induction calls generalizing s with
  | nil => exact h
  | cons cHead cTail ih =>
      exact ih ((VerificationService.VerifyOTP_redis cHead.1 cHead.2 s).2)
        (redisVerify_step_attemptsOk cHead.1 cHead.2 s h)

/-- The attempts bound is preserved by any sequence of SQL `VerifyOTP`
calls. -/
theorem sqlVerifyFold_attemptsOk (calls : List String) (s : SqlSt)
    (h : sqlAttemptsOk s) : sqlAttemptsOk (sqlVerifyFold calls s) := by
  induction calls generalizing s with
  | nil => exact h
  | cons cHead cTail ih =>
      exact ih ((VerificationService.VerifyOTP_sql cHead s).2)
        (sqlVerify_step_attemptsOk cHead s h)

end BranchLemmas

/-- C3: from any state respecting the attempts bound (a fresh record has
`attempts = 0`), every sequence of `Verify` calls keeps the stored
attempt count at or below `MaxAttempts` in both variants; a single
`Verify` call either deletes the record (ending its lifetime) or leaves
its attempt count no smaller (monotone non-decrease); and once the
stored count has reached `MaxAttempts`, no `Verify` call can return
success in either variant. -/
theorem c3_attempts_bounded_and_monotone (rcalls : List (Nat × String))
    (scalls : List String) (rs : RedisSt) (ss : SqlSt) (now : Nat) (w v : String)
    (hr : redisAttemptsOk rs) (hs : sqlAttemptsOk ss) :
    redisAttemptsOk (redisVerifyFold rcalls rs) ∧
    sqlAttemptsOk (sqlVerifyFold scalls ss) ∧
    ((VerificationService.VerifyOTP_redis now w rs).2 = none ∨
      redisAttemptsOf rs ≤
        redisAttemptsOf (VerificationService.VerifyOTP_redis now w rs).2) ∧
    ((VerificationService.VerifyOTP_sql v ss).2 = none ∨
      sqlAttemptsOf ss ≤ sqlAttemptsOf (VerificationService.VerifyOTP_sql v ss).2) ∧
    (MaxAttempts ≤ redisAttemptsOf rs →
      (VerificationService.VerifyOTP_redis now w rs).1 ≠ .ok ()) ∧
    (MaxAttempts ≤ sqlAttemptsOf ss →
      (VerificationService.VerifyOTP_sql v ss).1 ≠ .ok ()) :=
  ⟨redisVerifyFold_attemptsOk rcalls rs hr,
    sqlVerifyFold_attemptsOk scalls ss hs,
    redisVerify_step_mono now w rs,
    sqlVerify_step_mono v ss,
    fun hb => redisVerify_step_no_success now w rs hb,
    fun hb => sqlVerify_step_no_success v ss hb⟩

/-- Witness for `c3_attempts_bounded_and_monotone` on a record already at
the bound, hammered by a further burst of wrong and right guesses. -/
theorem c3_attempts_bounded_and_monotone_witness :
    (redisAttemptsOk (some (⟨"a@x.com", "123456", 0, 3, false⟩, 600)) ∧
      sqlAttemptsOk (some ⟨"a@x.com", "123456", 0, 3, false⟩)) ∧
    (redisAttemptsOk (redisVerifyFold [(1, "000000"), (2, "123456"), (3, "999999")]
        (some (⟨"a@x.com", "123456", 0, 3, false⟩, 600))) ∧
    sqlAttemptsOk (sqlVerifyFold ["000000", "123456", "999999"]
        (some ⟨"a@x.com", "123456", 0, 3, false⟩)) ∧
    ((VerificationService.VerifyOTP_redis 1 "123456"
        (some (⟨"a@x.com", "123456", 0, 3, false⟩, 600))).2 = none ∨
      redisAttemptsOf (some (⟨"a@x.com", "123456", 0, 3, false⟩, 600)) ≤
        redisAttemptsOf (VerificationService.VerifyOTP_redis 1 "123456"
          (some (⟨"a@x.com", "123456", 0, 3, false⟩, 600))).2) ∧
    ((VerificationService.VerifyOTP_sql "123456"
        (some ⟨"a@x.com", "123456", 0, 3, false⟩)).2 = none ∨
      sqlAttemptsOf (some ⟨"a@x.com", "123456", 0, 3, false⟩) ≤
        sqlAttemptsOf (VerificationService.VerifyOTP_sql "123456"
          (some ⟨"a@x.com", "123456", 0, 3, false⟩)).2) ∧
    (MaxAttempts ≤ redisAttemptsOf (some (⟨"a@x.com", "123456", 0, 3, false⟩, 600)) →
      (VerificationService.VerifyOTP_redis 1 "123456"
        (some (⟨"a@x.com", "123456", 0, 3, false⟩, 600))).1 ≠ .ok ()) ∧
    (MaxAttempts ≤ sqlAttemptsOf (some ⟨"a@x.com", "123456", 0, 3, false⟩) →
      (VerificationService.VerifyOTP_sql "123456"
        (some ⟨"a@x.com", "123456", 0, 3, false⟩)).1 ≠ .ok ())) :=
  ⟨⟨by decide, by decide⟩,
    c3_attempts_bounded_and_monotone [(1, "000000"), (2, "123456"), (3, "999999")]
      ["000000", "123456", "999999"]
      (some (⟨"a@x.com", "123456", 0, 3, false⟩, 600))
      (some ⟨"a@x.com", "123456", 0, 3, false⟩) 1 "123456" "123456"
      (by decide) (by decide)⟩

/-- C9: a record with `verified = true` makes `Verify` fail with the
already-verified error without mutating the stored state (in Redis even
when the key has meanwhile expired, the state is untouched), and a new
issuance — the only operation that writes `verified = false` — replaces
the whole record with a fresh one (`attempts = 0`, `verified = false`,
`createdAt` = the issuance time) in both variants. -/
theorem c9_verified_write_once (now now2 dl dl2 : Nat) (w v em c em2 c2 : String)
    (r q : OTPRecord) (hrv : r.verified = true) (hqv : q.verified = true)
    (hlive : now < dl)
    (hrd : r.createdAt + resendDelaySecs ≤ now2)
    (hqd : q.createdAt + resendDelaySecs ≤ now2) :
    VerificationService.VerifyOTP_redis now w (some (r, dl)) =
      (.error .alreadyVerified, some (r, dl)) ∧
    (VerificationService.VerifyOTP_redis now w (some (r, dl2))).2 = some (r, dl2) ∧
    VerificationService.VerifyOTP_sql v (some q) =
      (.error .alreadyVerified, some q) ∧
    VerificationService.SendVerificationEmail_redis now2 em c true (some (r, dl2)) =
      (.ok (), some (⟨em, c, now2, 0, false⟩, now2 + otpExpirySecs)) ∧
    VerificationService.SendVerificationEmail_sql now2 em2 c2 true (some q) =
      (.ok (), some ⟨em2, c2, now2, 0, false⟩) := by
  refine ⟨verifyRedis_verified now w r dl hlive hrv, ?_,
    verifySql_verified v q hqv, ?_, ?_⟩
  · by_cases h2 : now < dl2
    · rw [verifyRedis_verified now w r dl2 h2 hrv]
    · rw [verifyRedis_absent now w _ (by simp [RedisOTPService.GetOTP, h2])]
  · simpa using sendRedis_proceed now2 em c true r dl2 hrd
  · simpa using sendSql_proceed now2 em2 c2 true q hqd

/-- Witness for `c9_verified_write_once` on a verified record issued at
time 0, re-verified at 10 and reissued at 60. -/
theorem c9_verified_write_once_witness :
    (((⟨"a@x.com", "123456", 0, 1, true⟩ : OTPRecord).verified = true) ∧
      (10 : Nat) < 600 ∧ (0 : Nat) + resendDelaySecs ≤ 60) ∧
    (VerificationService.VerifyOTP_redis 10 "123456"
        (some (⟨"a@x.com", "123456", 0, 1, true⟩, 600)) =
      (.error .alreadyVerified, some (⟨"a@x.com", "123456", 0, 1, true⟩, 600)) ∧
    (VerificationService.VerifyOTP_redis 10 "123456"
        (some (⟨"a@x.com", "123456", 0, 1, true⟩, 5))).2 =
      some (⟨"a@x.com", "123456", 0, 1, true⟩, 5) ∧
    VerificationService.VerifyOTP_sql "123456"
        (some ⟨"b@x.com", "123456", 0, 2, true⟩) =
      (.error .alreadyVerified, some ⟨"b@x.com", "123456", 0, 2, true⟩) ∧
    VerificationService.SendVerificationEmail_redis 60 "a@x.com" "654321" true
        (some (⟨"a@x.com", "123456", 0, 1, true⟩, 5)) =
      (.ok (), some (⟨"a@x.com", "654321", 60, 0, false⟩, 60 + otpExpirySecs)) ∧
    VerificationService.SendVerificationEmail_sql 60 "b@x.com" "654321" true
        (some ⟨"b@x.com", "123456", 0, 2, true⟩) =
      (.ok (), some ⟨"b@x.com", "654321", 60, 0, false⟩)) :=
  ⟨⟨rfl, by decide, by decide⟩,
    c9_verified_write_once 10 60 600 5 "123456" "123456" "a@x.com" "654321"
      "b@x.com" "654321" ⟨"a@x.com", "123456", 0, 1, true⟩
      ⟨"b@x.com", "123456", 0, 2, true⟩ rfl rfl (by decide) (by decide) (by decide)⟩

/-- C1: the spec requires a record whose `createdAt` is older than the
expiry window to be treated as absent by `Verify` in every backend, the
backend's `get` never returning it as live. The SQL variant violates
this: its `GetOTP` selects the row with no `created_at` condition and
`VerifyOTP` consults no clock at all, so at wall-clock 660 s — past
`createdAt = 0` plus `otpExpirySecs = 600` — verification of the stored
record still succeeds instead of failing with the not-found error. -/
theorem c1_sql_expired_record_processed_as_live :
    (0 : Nat) + otpExpirySecs < 660 ∧
    VerificationService.VerifyOTP_sql "123456"
        (some ⟨"a@x.com", "123456", 0, 0, false⟩) =
      (.ok (), some ⟨"a@x.com", "123456", 0, 1, true⟩) :=
  ⟨by decide, rfl⟩

/-- C5: on `attempts >= MaxAttempts` the Redis variant deletes the key
and fails exhausted, but the SQL variant fails exhausted and leaves the
row in place — the claimed deletion does not happen in both variants. -/
theorem c5_exhausted_deletes_in_redis_not_in_sql :
    VerificationService.VerifyOTP_redis 10 "000000"
        (some (⟨"a@x.com", "123456", 0, 3, false⟩, 600)) =
      (.error .attemptsExhausted, none) ∧
    VerificationService.VerifyOTP_sql "000000"
        (some ⟨"a@x.com", "123456", 0, 3, false⟩) =
      (.error .attemptsExhausted, some ⟨"a@x.com", "123456", 0, 3, false⟩) :=
  ⟨rfl, rfl⟩

/-- C6: when the notifier fails after the fresh record was stored, the
Redis variant deletes the just-stored key (rollback) and fails with the
delivery error, but the SQL variant returns the delivery error with the
fresh row still stored — the claimed rollback is missing there. -/
theorem c6_delivery_failure_rollback_only_in_redis :
    VerificationService.SendVerificationEmail_redis 0 "a@x.com" "123456" false none =
      (.error .delivery, none) ∧
    VerificationService.SendVerificationEmail_sql 0 "a@x.com" "123456" false none =
      (.error .delivery, some ⟨"a@x.com", "123456", 0, 0, false⟩) :=
  ⟨rfl, rfl⟩

/-- C2 (counterexample): with `MaxAttempts = 3`, the third consecutive
wrong guess against a fresh record still yields the mismatch error — not
`AttemptsExhausted` as the claim states — in both variants (shown here
starting from a fresh record with code "123456" and guessing "000000"
three times; the fold carries the state through the first two calls). -/
theorem c2_third_wrong_guess_is_mismatch :
    (VerificationService.VerifyOTP_redis 0 "000000"
        (redisVerifyFold [(0, "000000"), (0, "000000")]
          (some (⟨"a@x.com", "123456", 0, 0, false⟩, 600)))).1 =
      .error .mismatch ∧
    (VerificationService.VerifyOTP_sql "000000"
        (sqlVerifyFold ["000000", "000000"]
          (some ⟨"a@x.com", "123456", 0, 0, false⟩))).1 =
      .error .mismatch ∧
    (Except.error VErr.mismatch : Except VErr Unit) ≠ .error .attemptsExhausted := by
  refine ⟨rfl, rfl, by decide⟩

/-- C2 (amended): from a fresh record, each of the `MaxAttempts` wrong
guesses yields the mismatch error (the last included); the following
call yields `AttemptsExhausted` — deleting the key in the Redis variant,
leaving the row in the SQL variant; after that, an issuance at a time
past the resend delay (immediate in Redis, where the slot is empty)
succeeds when delivery succeeds. -/
theorem c2_attempt_budget (t0 dl now now2 : Nat) (em c w c2 : String)
    (hw : c ≠ w) (hlive : now < dl)
    (hdelay : t0 + resendDelaySecs ≤ now2) :
    VerificationService.VerifyOTP_redis now w (some (⟨em, c, t0, 0, false⟩, dl)) =
      (.error .mismatch, some (⟨em, c, t0, 1, false⟩, now + otpExpirySecs)) ∧
    VerificationService.VerifyOTP_redis now w
        (some (⟨em, c, t0, 1, false⟩, now + otpExpirySecs)) =
      (.error .mismatch, some (⟨em, c, t0, 2, false⟩, now + otpExpirySecs)) ∧
    VerificationService.VerifyOTP_redis now w
        (some (⟨em, c, t0, 2, false⟩, now + otpExpirySecs)) =
      (.error .mismatch, some (⟨em, c, t0, 3, false⟩, now + otpExpirySecs)) ∧
    VerificationService.VerifyOTP_redis now w
        (some (⟨em, c, t0, 3, false⟩, now + otpExpirySecs)) =
      (.error .attemptsExhausted, none) ∧
    VerificationService.SendVerificationEmail_redis now2 em c2 true none =
      (.ok (), some (⟨em, c2, now2, 0, false⟩, now2 + otpExpirySecs)) ∧
    VerificationService.VerifyOTP_sql w (some ⟨em, c, t0, 0, false⟩) =
      (.error .mismatch, some ⟨em, c, t0, 1, false⟩) ∧
    VerificationService.VerifyOTP_sql w (some ⟨em, c, t0, 1, false⟩) =
      (.error .mismatch, some ⟨em, c, t0, 2, false⟩) ∧
    VerificationService.VerifyOTP_sql w (some ⟨em, c, t0, 2, false⟩) =
      (.error .mismatch, some ⟨em, c, t0, 3, false⟩) ∧
    VerificationService.VerifyOTP_sql w (some ⟨em, c, t0, 3, false⟩) =
      (.error .attemptsExhausted, some ⟨em, c, t0, 3, false⟩) ∧
    VerificationService.SendVerificationEmail_sql now2 em c2 true
        (some ⟨em, c, t0, 3, false⟩) =
      (.ok (), some ⟨em, c2, now2, 0, false⟩) := by
  refine ⟨verifyRedis_mismatch now w ⟨em, c, t0, 0, false⟩ dl hlive rfl
      (show (0 : Nat) < MaxAttempts by decide) hw,
    verifyRedis_mismatch now w ⟨em, c, t0, 1, false⟩ _ (lt_add_expiry now) rfl
      (show (1 : Nat) < MaxAttempts by decide) hw,
    verifyRedis_mismatch now w ⟨em, c, t0, 2, false⟩ _ (lt_add_expiry now) rfl
      (show (2 : Nat) < MaxAttempts by decide) hw,
    verifyRedis_exhausted now w ⟨em, c, t0, 3, false⟩ _ (lt_add_expiry now) rfl
      (show MaxAttempts ≤ (3 : Nat) by decide),
    sendRedis_absent now2 em c2 true,
    verifySql_mismatch w ⟨em, c, t0, 0, false⟩ rfl
      (show (0 : Nat) < MaxAttempts by decide) hw,
    verifySql_mismatch w ⟨em, c, t0, 1, false⟩ rfl
      (show (1 : Nat) < MaxAttempts by decide) hw,
    verifySql_mismatch w ⟨em, c, t0, 2, false⟩ rfl
      (show (2 : Nat) < MaxAttempts by decide) hw,
    verifySql_exhausted w ⟨em, c, t0, 3, false⟩ rfl
      (show MaxAttempts ≤ (3 : Nat) by decide),
    sendSql_proceed now2 em c2 true ⟨em, c, t0, 3, false⟩ hdelay⟩

/-- Witness for `c2_attempt_budget` at `t0 = 0`, `dl = 600`, `now = 5`,
`now2 = 60`, code "123456", wrong guess "000000". -/
theorem c2_attempt_budget_witness :
    (("123456" : String) ≠ "000000" ∧ (5 : Nat) < 600 ∧
      (0 : Nat) + resendDelaySecs ≤ 60) ∧
    (VerificationService.VerifyOTP_redis 5 "000000"
        (some (⟨"a@x.com", "123456", 0, 0, false⟩, 600)) =
      (.error .mismatch, some (⟨"a@x.com", "123456", 0, 1, false⟩, 5 + otpExpirySecs)) ∧
    VerificationService.VerifyOTP_redis 5 "000000"
        (some (⟨"a@x.com", "123456", 0, 1, false⟩, 5 + otpExpirySecs)) =
      (.error .mismatch, some (⟨"a@x.com", "123456", 0, 2, false⟩, 5 + otpExpirySecs)) ∧
    VerificationService.VerifyOTP_redis 5 "000000"
        (some (⟨"a@x.com", "123456", 0, 2, false⟩, 5 + otpExpirySecs)) =
      (.error .mismatch, some (⟨"a@x.com", "123456", 0, 3, false⟩, 5 + otpExpirySecs)) ∧
    VerificationService.VerifyOTP_redis 5 "000000"
        (some (⟨"a@x.com", "123456", 0, 3, false⟩, 5 + otpExpirySecs)) =
      (.error .attemptsExhausted, none) ∧
    VerificationService.SendVerificationEmail_redis 60 "a@x.com" "654321" true none =
      (.ok (), some (⟨"a@x.com", "654321", 60, 0, false⟩, 60 + otpExpirySecs)) ∧
    VerificationService.VerifyOTP_sql "000000"
        (some ⟨"a@x.com", "123456", 0, 0, false⟩) =
      (.error .mismatch, some ⟨"a@x.com", "123456", 0, 1, false⟩) ∧
    VerificationService.VerifyOTP_sql "000000"
        (some ⟨"a@x.com", "123456", 0, 1, false⟩) =
      (.error .mismatch, some ⟨"a@x.com", "123456", 0, 2, false⟩) ∧
    VerificationService.VerifyOTP_sql "000000"
        (some ⟨"a@x.com", "123456", 0, 2, false⟩) =
      (.error .mismatch, some ⟨"a@x.com", "123456", 0, 3, false⟩) ∧
    VerificationService.VerifyOTP_sql "000000"
        (some ⟨"a@x.com", "123456", 0, 3, false⟩) =
      (.error .attemptsExhausted, some ⟨"a@x.com", "123456", 0, 3, false⟩) ∧
    VerificationService.SendVerificationEmail_sql 60 "a@x.com" "654321" true
        (some ⟨"a@x.com", "123456", 0, 3, false⟩) =
      (.ok (), some ⟨"a@x.com", "654321", 60, 0, false⟩)) :=
  ⟨⟨by decide, by decide, by decide⟩,
    c2_attempt_budget 0 600 5 60 "a@x.com" "123456" "000000" "654321"
      (by decide) (by decide) (by decide)⟩

/-- C8: the Redis variant's `StoreOTP` always restarts the TTL at the
full window, so a failed attempt extends the record's life: issued at 0
(deadline 600), a wrong guess at 540 moves the deadline to 1140, and at
720 — past `createdAt + otpExpirySecs` — `VerifyOTP` still reaches and
successfully verifies the record instead of treating it as absent. -/
theorem c8_ttl_reset_keeps_record_reachable_past_expiry :
    (VerificationService.VerifyOTP_redis 540 "000000"
        (some (⟨"a@x.com", "123456", 0, 0, false⟩, 0 + otpExpirySecs))).2 =
      some (⟨"a@x.com", "123456", 0, 1, false⟩, 540 + otpExpirySecs) ∧
    (0 : Nat) + otpExpirySecs < 720 ∧
    (VerificationService.VerifyOTP_redis 720 "123456"
        (some (⟨"a@x.com", "123456", 0, 1, false⟩, 540 + otpExpirySecs))).1 =
      .ok () := by
  refine ⟨rfl, by decide, rfl⟩

/-- C4: once the pending-record guards pass (record reachable,
unverified, attempts below the maximum), both variants increment
`attempts` before comparing, and on a wrong code the incremented value is
persisted together with the mismatch error — the increment applies on
every allowed attempt, the final one (`attempts = MaxAttempts - 1`)
included, since the hypotheses cover it. -/
theorem c4_increment_before_compare (now dl : Nat) (w v : String)
    (r q : OTPRecord) (hlive : now < dl)
    (hrv : r.verified = false) (hra : r.attempts < MaxAttempts) (hrw : r.otp ≠ w)
    (hqv : q.verified = false) (hqa : q.attempts < MaxAttempts) (hqw : q.otp ≠ v) :
    VerificationService.VerifyOTP_redis now w (some (r, dl)) =
      (.error .mismatch,
        some ({ r with attempts := r.attempts + 1 }, now + otpExpirySecs)) ∧
    VerificationService.VerifyOTP_sql v (some q) =
      (.error .mismatch, some { q with attempts := q.attempts + 1 }) :=
  ⟨verifyRedis_mismatch now w r dl hlive hrv hra hrw,
    verifySql_mismatch v q hqv hqa hqw⟩

/-- Witness for `c4_increment_before_compare` on the final allowed
attempt (`attempts = 2 = MaxAttempts - 1`). -/
theorem c4_increment_before_compare_witness :
    ((7 : Nat) < 600 ∧ (2 : Nat) < MaxAttempts ∧ ("123456" : String) ≠ "000000") ∧
    (VerificationService.VerifyOTP_redis 7 "000000"
        (some (⟨"a@x.com", "123456", 0, 2, false⟩, 600)) =
      (.error .mismatch, some (⟨"a@x.com", "123456", 0, 3, false⟩, 7 + otpExpirySecs)) ∧
    VerificationService.VerifyOTP_sql "000000"
        (some ⟨"b@x.com", "123456", 4, 2, false⟩) =
      (.error .mismatch, some ⟨"b@x.com", "123456", 4, 3, false⟩)) :=
  ⟨⟨by decide, by decide, by decide⟩,
    c4_increment_before_compare 7 600 "000000" "000000"
      ⟨"a@x.com", "123456", 0, 2, false⟩ ⟨"b@x.com", "123456", 4, 2, false⟩
      (by decide) rfl (by decide) (by decide) rfl (by decide) (by decide)⟩

/-- C7 (counterexample): issuance 30 s after a record was created is
throttled, but the error carries the constant `ResendDelayMins` (one
minute), not the remaining wait — at this input the remaining wait is
`resendDelaySecs - 30 = 30` seconds, which the carried minute count does
not equal. -/
theorem c7_throttle_payload_is_constant :
    (VerificationService.SendVerificationEmail_redis 30 "a@x.com" "654321" true
        (some (⟨"a@x.com", "123456", 0, 0, false⟩, 600))).1 =
      .error (.throttle ResendDelayMins) ∧
    ResendDelayMins * minuteSecs ≠ resendDelaySecs - 30 := by
  refine ⟨rfl, by decide⟩

/-- C7 (amended): issuance while a record younger than the resend delay
exists fails with the throttle error carrying the configured full delay
`ResendDelayMins` (not the remaining wait), and leaves the stored record
— its `code` and `createdAt` in particular — completely unchanged, in
both variants. -/
theorem c7_throttled_resend_no_mutation (now dl : Nat) (em c em2 c2 : String)
    (ok ok2 : Bool) (r q : OTPRecord) (hlive : now < dl)
    (hrfresh : now - r.createdAt < resendDelaySecs)
    (hqfresh : now - q.createdAt < resendDelaySecs) :
    VerificationService.SendVerificationEmail_redis now em c ok (some (r, dl)) =
      (.error (.throttle ResendDelayMins), some (r, dl)) ∧
    VerificationService.SendVerificationEmail_sql now em2 c2 ok2 (some q) =
      (.error (.throttle ResendDelayMins), some q) :=
  ⟨sendRedis_throttled now em c ok r dl hlive hrfresh,
    sendSql_throttled now em2 c2 ok2 q hqfresh⟩

/-- Witness for `c7_throttled_resend_no_mutation` 30 s after issuance. -/
theorem c7_throttled_resend_no_mutation_witness :
    ((30 : Nat) < 600 ∧ (30 : Nat) - 0 < resendDelaySecs) ∧
    (VerificationService.SendVerificationEmail_redis 30 "a@x.com" "654321" true
        (some (⟨"a@x.com", "123456", 0, 0, false⟩, 600)) =
      (.error (.throttle ResendDelayMins), some (⟨"a@x.com", "123456", 0, 0, false⟩, 600)) ∧
    VerificationService.SendVerificationEmail_sql 30 "b@x.com" "654321" false
        (some ⟨"b@x.com", "123456", 0, 1, false⟩) =
      (.error (.throttle ResendDelayMins), some ⟨"b@x.com", "123456", 0, 1, false⟩)) :=
  ⟨⟨by decide, by decide⟩,
    c7_throttled_resend_no_mutation 30 600 "a@x.com" "654321" "b@x.com" "654321"
      true false ⟨"a@x.com", "123456", 0, 0, false⟩ ⟨"b@x.com", "123456", 0, 1, false⟩
      (by decide) (by decide) (by decide)⟩

/-- C10: a successful verification (code matches, guards passed) returns
success and persists the record with `verified = true` and the
incremented attempt count — the record stays present in the backend in
both variants rather than being deleted. -/
theorem c10_success_persists_verified_record (now dl : Nat) (w v : String)
    (r q : OTPRecord) (hlive : now < dl)
    (hrv : r.verified = false) (hra : r.attempts < MaxAttempts) (hrw : r.otp = w)
    (hqv : q.verified = false) (hqa : q.attempts < MaxAttempts) (hqw : q.otp = v) :
    VerificationService.VerifyOTP_redis now w (some (r, dl)) =
      (.ok (),
        some ({ r with attempts := r.attempts + 1, verified := true },
          now + otpExpirySecs)) ∧
    VerificationService.VerifyOTP_sql v (some q) =
      (.ok (), some { q with attempts := q.attempts + 1, verified := true }) :=
  ⟨verifyRedis_match now w r dl hlive hrv hra hrw,
    verifySql_match v q hqv hqa hqw⟩

/-- Witness for `c10_success_persists_verified_record`. -/
theorem c10_success_persists_verified_record_witness :
    ((12 : Nat) < 600 ∧ (1 : Nat) < MaxAttempts ∧ ("123456" : String) = "123456") ∧
    (VerificationService.VerifyOTP_redis 12 "123456"
        (some (⟨"a@x.com", "123456", 0, 1, false⟩, 600)) =
      (.ok (), some (⟨"a@x.com", "123456", 0, 2, true⟩, 12 + otpExpirySecs)) ∧
    VerificationService.VerifyOTP_sql "777777"
        (some ⟨"b@x.com", "777777", 3, 0, false⟩) =
      (.ok (), some ⟨"b@x.com", "777777", 3, 1, true⟩)) :=
  ⟨⟨by decide, by decide, rfl⟩,
    c10_success_persists_verified_record 12 600 "123456" "777777"
      ⟨"a@x.com", "123456", 0, 1, false⟩ ⟨"b@x.com", "777777", 3, 0, false⟩
      (by decide) rfl (by decide) rfl rfl (by decide) rfl⟩

example :
    VerificationService.VerifyOTP_sql "123456"
      (some ⟨"a@x.com", "123456", 0, 0, false⟩) =
    (.ok (), some ⟨"a@x.com", "123456", 0, 1, true⟩) := rfl

example :
    VerificationService.VerifyOTP_redis 700 "123456"
      (some (⟨"a@x.com", "123456", 0, 0, false⟩, 600)) =
    (.error .notFound, some (⟨"a@x.com", "123456", 0, 0, false⟩, 600)) := rfl
